import Mathlib

set_option maxHeartbeats 1000000

/-!
Shallow embedding of the contacts-management backend (FastAPI + SQLAlchemy):
`src/services/authservice.py`, `src/repository/users_repo.py` and
`src/repository/contacts_repo.py`, together with theorems checking the
specification's claims about token handling, user activation and the
contact store.

Modelling conventions:
* A JWT is modelled as its decoded claim set together with the signing key
  and algorithm; signature verification succeeds exactly when the verifier
  supplies the same key and accepts the algorithm (jose raises `JWTError`
  otherwise, and also on an expired `exp` claim).
* Wall-clock time is a natural number of seconds; `datetime.utcnow()` is an
  explicit `now` parameter.
* `fastapi.HTTPException` is an `HTTPError` value carried in `Except`
  (headers are not modelled; only status code and detail matter here).
* An uncaught Python runtime error (e.g. `AttributeError` on `None`, or
  `ValueError` from `datetime`) is modelled by `Option.none`.
* The database session is the explicit list of stored rows; `commit` is
  returning the updated list.
-/

/-- HTTP error as raised by `fastapi.HTTPException`: status code and detail. -/
structure HTTPError where
  status_code : Nat
  detail : String
  deriving Repr, DecidableEq

/-- Decoded JWT claim set as built by the issuers in `authservice.py`:
the callers always pass `data = {"sub": email}`, and the issuer adds
`iat`, `exp` and `scope`.  `sub` is optional because `payload.get("sub")`
may return `None`. -/
structure TokenPayload where
  sub : Option String
  iat : Nat
  exp : Nat
  scope : String
  deriving Repr, DecidableEq

/-- A signed JWT as produced by `jose.jwt.encode`: the claims plus the
signing key and algorithm used to produce the signature. -/
structure Token where
  payload : TokenPayload
  key : String
  alg : String
  deriving Repr, DecidableEq

/-- The process-wide signing secret `settings.secret_key` (class attribute
`Auth.SECRET_KEY`); its concrete value is irrelevant, only that all issuers
and verifiers share it. -/
def SECRET_KEY : String := "settings.secret_key"

/-- The process-wide signing algorithm `settings.algorithm` (class
attribute `Auth.ALGR`). -/
def ALGR : String := "HS256"

/-- `jose.jwt.decode(token, key, algorithms)` at wall-clock `now`: returns
the claims when the signature verifies (same key, accepted algorithm) and
the `exp` claim has not passed (`JWTError` is raised when `exp < now`);
`none` models a raised `JWTError`. -/
def jwtDecode (t : Token) (key : String) (algorithms : List String) (now : Nat) :
    Option TokenPayload :=
  if t.key = key ∧ t.alg ∈ algorithms ∧ now ≤ t.payload.exp then some t.payload else none

/-- Python truthiness of the `Optional[float] = None` parameter
`expires_delta`: `None` and `0` are falsy. -/
def pyTruthy : Option Nat → Bool
  | none => false
  | some n => n != 0

/-- `Auth.create_access_token(data, expires_delta)`: signs
`data ∪ {iat, exp, scope="access_token"}` with the shared secret; the
expiry is `now + expires_delta` seconds when `expires_delta` is truthy,
else `now + 15` minutes. -/
def create_access_token (data_sub : Option String) (now : Nat)
    (expires_delta : Option Nat) : Token :=
  let expires := if pyTruthy expires_delta then now + expires_delta.getD 0 else now + 15 * 60
  { payload := { sub := data_sub, iat := now, exp := expires, scope := "access_token" },
    key := SECRET_KEY, alg := ALGR }

/-- `Auth.create_refresh_token(data, expires_delta)`: same as the access
issuer but with a 7-day default expiry; note the scope tag written by the
source is `"access_token"`, not `"refresh_token"`. -/
def create_refresh_token (data_sub : Option String) (now : Nat)
    (expires_delta : Option Nat) : Token :=
  let expires := if pyTruthy expires_delta then now + expires_delta.getD 0
    else now + 7 * 24 * 60 * 60
  { payload := { sub := data_sub, iat := now, exp := expires, scope := "access_token" },
    key := SECRET_KEY, alg := ALGR }

/-- `Auth.create_email_token(data)`: fixed 1-hour expiry, scope
`"email_token"`. -/
def create_email_token (data_sub : Option String) (now : Nat) : Token :=
  { payload := { sub := data_sub, iat := now, exp := now + 60 * 60, scope := "email_token" },
    key := SECRET_KEY, alg := ALGR }

/-- `Auth.create_reset_token(data, expire=1)`: expiry `now + expire` hours,
scope `"refresh"` (the source reuses this tag for password-reset tokens). -/
def create_reset_token (data_sub : Option String) (now : Nat) (expire : Nat) : Token :=
  { payload := { sub := data_sub, iat := now, exp := now + expire * 60 * 60, scope := "refresh" },
    key := SECRET_KEY, alg := ALGR }

/-- The `credentials_exception` built at the top of
`Auth.get_current_user`: HTTP 401 with the generic detail. -/
def credentials_exception : HTTPError :=
  { status_code := 401, detail := "Could not validate credentials" }

/-- The token-validation part of `Auth.get_current_user` (lines 131-139 of
`authservice.py`): decode with the shared secret, require scope
`"access_token"`, require a `sub` claim; every failure raises the one
`credentials_exception`. -/
def verify_access_subject (token : Token) (now : Nat) : Except HTTPError String :=
  match jwtDecode token SECRET_KEY [ALGR] now with
  | none => Except.error credentials_exception
  | some payload =>
    if payload.scope ≠ "access_token" then Except.error credentials_exception
    else
      match payload.sub with
      | none => Except.error credentials_exception
      | some email => Except.ok email

/-- User row of the `users` table (`src/DB/models.py` is not in scope;
fields are those read and written by `users_repo.py` and the spec's data
model). -/
structure User where
  id : Nat
  username : String
  email : String
  password : String
  is_activated : Bool
  avatar : Option String
  refresh_token : Option Token
  reset_token : Option Token
  created_at : Nat
  deriving Repr, DecidableEq

/-- `repo_user_authentication_by_email(email, db)`: first stored user with
exactly this email (`result.scalar()`), or `None`. -/
def repo_user_authentication_by_email (email : String) (db : List User) : Option User :=
  db.find? (fun u => u.email == email)

/-- `Auth.get_current_user(token, db)`: validate the token, then look the
subject up in the user table; an unknown subject raises the same
`credentials_exception`. -/
def get_current_user (token : Token) (now : Nat) (db : List User) : Except HTTPError User :=
  match verify_access_subject token now with
  | Except.error e => Except.error e
  | Except.ok email =>
    match repo_user_authentication_by_email email db with
    | none => Except.error credentials_exception
    | some user => Except.ok user

/-- `Auth.decode_refresh_token(refresh_token)`: decode with the shared
secret; scope `"refresh_token"` yields `payload.get("sub")` (possibly
`None`), any other scope raises 401 "Invalid token scope", and a decode
failure raises 401 "Could not validate credentials". -/
def decode_refresh_token (refresh_token : Token) (now : Nat) :
    Except HTTPError (Option String) :=
  match jwtDecode refresh_token SECRET_KEY [ALGR] now with
  | some payload =>
    if payload.scope = "refresh_token" then Except.ok payload.sub
    else Except.error { status_code := 401, detail := "Invalid token scope" }
  | none => Except.error { status_code := 401, detail := "Could not validate credentials" }

/-- `Auth.get_email_from_token(token)`: decode with the shared secret; on
scope `"email_token"` return `payload.get("sub")`; on any other scope fall
off the `try` block and return `None`; on decode failure raise HTTP 422. -/
def get_email_from_token (token : Token) (now : Nat) : Except HTTPError (Option String) :=
  match jwtDecode token SECRET_KEY [ALGR] now with
  | some payload =>
    if payload.scope = "email_token" then Except.ok payload.sub else Except.ok none
  | none =>
    Except.error { status_code := 422, detail := "Invalid token for email confirmation." }

/-- `Auth.get_email_from_reset_token(token)`: same shape as the email-token
verifier but with expected scope `"refresh"` and its own 422 detail. -/
def get_email_from_reset_token (token : Token) (now : Nat) :
    Except HTTPError (Option String) :=
  match jwtDecode token SECRET_KEY [ALGR] now with
  | some payload =>
    if payload.scope = "refresh" then Except.ok payload.sub else Except.ok none
  | none =>
    Except.error { status_code := 422, detail := "Invalid token for password reset." }

/-- Mutation performed by `confirmed_email`: set `is_activated := True` on
the user object returned by the lookup (the first row matching the email)
and commit. -/
def setActivatedFirst (email : String) : List User → List User
  | [] => []
  | u :: us =>
    if u.email == email then { u with is_activated := true } :: us
    else u :: setActivatedFirst email us

/-- `confirmed_email(email, db)` from `users_repo.py`: look the user up by
email, then unconditionally run `user.is_activated = True` and commit.
When the lookup returns `None` the attribute assignment raises an uncaught
`AttributeError`, modelled by `none`. -/
def confirmed_email (email : String) (db : List User) : Option (List User) :=
  match repo_user_authentication_by_email email db with
  | none => none
  | some _ => some (setActivatedFirst email db)

/-- Calendar date as held by `datetime.date` / the stored `b_day` column. -/
structure PyDate where
  year : Nat
  month : Nat
  day : Nat
  deriving Repr, DecidableEq

/-- Gregorian leap-year rule used by `datetime`. -/
def isLeapYear (y : Nat) : Bool :=
  (y % 4 == 0 && y % 100 != 0) || (y % 400 == 0)

/-- Number of days of a month in a given year. -/
def daysInMonth (y m : Nat) : Nat :=
  if m = 2 then (if isLeapYear y then 29 else 28)
  else if m = 4 ∨ m = 6 ∨ m = 9 ∨ m = 11 then 30
  else 31

/-- `datetime.datetime(year, month, day)`: raises `ValueError` (modelled by
`none`) unless the triple is a well-formed calendar date. -/
def mkPyDate (y m d : Nat) : Option PyDate :=
  if 1 ≤ m ∧ m ≤ 12 ∧ 1 ≤ d ∧ d ≤ daysInMonth y m then some ⟨y, m, d⟩ else none

/-- Python's ordering on `date` values: lexicographic on (year, month, day). -/
def dateLe (a b : PyDate) : Bool :=
  a.year < b.year ||
    (a.year == b.year && (a.month < b.month || (a.month == b.month && a.day ≤ b.day)))

/-- Successor day in the Gregorian calendar. -/
def nextDay (d : PyDate) : PyDate :=
  if d.day < daysInMonth d.year d.month then { d with day := d.day + 1 }
  else if d.month < 12 then { year := d.year, month := d.month + 1, day := 1 }
  else { year := d.year + 1, month := 1, day := 1 }

/-- `date + timedelta(days = n)`. -/
def addDays (d : PyDate) : Nat → PyDate
  | 0 => d
  | n + 1 => nextDay (addDays d n)

/-- Contact row of the `contacts` table (fields read and written by
`contacts_repo.py` and the spec's data model). -/
structure Contact where
  id : Nat
  user_id : Nat
  first_name : String
  last_name : String
  email : String
  phone : String
  b_day : PyDate
  note : Option String
  deriving Repr, DecidableEq

/-- `get_specific_contact_belongs_to_user(id, user, db)`: first stored row
with this owner id and contact id (`.scalar()`), or `None`. -/
def get_specific_contact_belongs_to_user (id : Nat) (user : User) (db : List Contact) :
    Option Contact :=
  db.find? (fun c => c.user_id == user.id && c.id == id)

/-- `repo_get_contact_by_id(id, user, db)`: 404 "Contact not found" when the
owner-scoped lookup returns `None`, whether the id is absent or owned by a
different user. -/
def repo_get_contact_by_id (id : Nat) (user : User) (db : List Contact) :
    Except HTTPError Contact :=
  match get_specific_contact_belongs_to_user id user db with
  | none => Except.error { status_code := 404, detail := "Contact not found" }
  | some c => Except.ok c

/-- Partial update body (`ContactUpdate` pydantic schema): a field is
applied only when explicitly present (`exclude_unset=True`). -/
structure ContactUpdate where
  first_name : Option String
  last_name : Option String
  email : Option String
  phone : Option String
  b_day : Option PyDate
  note : Option String
  deriving Repr, DecidableEq

/-- The `setattr` loop of `repo_update_contact_db`: overwrite exactly the
fields present in the body. -/
def applyContactUpdate (body : ContactUpdate) (c : Contact) : Contact :=
  { c with
    first_name := body.first_name.getD c.first_name,
    last_name := body.last_name.getD c.last_name,
    email := body.email.getD c.email,
    phone := body.phone.getD c.phone,
    b_day := body.b_day.getD c.b_day,
    note := match body.note with | none => c.note | some n => some n }

/-- Commit of an ORM mutation: the single row the lookup returned (the
first one matching the predicate) is replaced by its updated value. -/
def updateFirstMatching (p : Contact → Bool) (f : Contact → Contact) :
    List Contact → List Contact
  | [] => []
  | c :: cs => if p c then f c :: cs else c :: updateFirstMatching p f cs

/-- `session.delete` commit: the single row the lookup returned is removed. -/
def removeFirstMatching (p : Contact → Bool) : List Contact → List Contact
  | [] => []
  | c :: cs => if p c then cs else c :: removeFirstMatching p cs

/-- `repo_update_contact_db(id, user, body, db)`: owner-scoped lookup, 404
"Contact not found" on `None`, otherwise apply the fields present in the
body and commit; returns the updated contact and the updated table. -/
def repo_update_contact_db (id : Nat) (user : User) (body : ContactUpdate)
    (db : List Contact) : Except HTTPError (Contact × List Contact) :=
  match get_specific_contact_belongs_to_user id user db with
  | none => Except.error { status_code := 404, detail := "Contact not found" }
  | some c =>
    Except.ok (applyContactUpdate body c,
      updateFirstMatching (fun d => d.user_id == user.id && d.id == id)
        (applyContactUpdate body) db)

/-- `repo_delete_contact_db(id, user, db)`: owner-scoped lookup, 404
"Contact not found" on `None`, otherwise delete the row and return the
confirmation message naming the contact's full name. -/
def repo_delete_contact_db (id : Nat) (user : User) (db : List Contact) :
    Except HTTPError (String × List Contact) :=
  match get_specific_contact_belongs_to_user id user db with
  | none => Except.error { status_code := 404, detail := "Contact not found" }
  | some c =>
    Except.ok ("Contact \x27" ++ (c.first_name ++ " " ++ c.last_name) ++
        "\x27 successfully deleted",
      removeFirstMatching (fun d => d.user_id == user.id && d.id == id) db)

/-- SQL `LIKE` semantics over character lists: the percent wildcard matches
any (possibly empty) character sequence, the underscore wildcard matches
exactly one character, every other pattern character matches itself, and
the whole string must be consumed. -/
def likeMatchL : List Char → List Char → Bool
  | [], s => s.isEmpty
  | p :: ps, s =>
    if p = '%' then s.tails.any (fun t => likeMatchL ps t)
    else
      match s with
      | [] => false
      | c :: s2 => (p == '_' || p == c) && likeMatchL ps s2

/-- SQL `LIKE` on strings (full-string match of the pattern). -/
def likeMatch (pattern s : String) : Bool :=
  likeMatchL pattern.data s.data

/-- Python `str.lower()` / SQL `lower()`, character by character. -/
def strLower (s : String) : String :=
  String.mk (s.data.map Char.toLower)

/-- The interpolated pattern built by `repo_get_contacts_query`: a percent
sign, then the raw query text, then a percent sign — no escaping of any
wildcard character the query itself contains. -/
def searchPattern (query : String) : String :=
  "%" ++ query ++ "%"

/-- The `WHERE` disjunction of `repo_get_contacts_query`: the lowercased
pattern `LIKE`-matches the lowercased first name, last name or email. -/
def contactMatchesQuery (query : String) (c : Contact) : Bool :=
  likeMatch (strLower (searchPattern query)) (strLower c.first_name) ||
  likeMatch (strLower (searchPattern query)) (strLower c.last_name) ||
  likeMatch (strLower (searchPattern query)) (strLower c.email)

/-- Insertion step of the `ORDER BY id ASC` model. -/
def insertById (c : Contact) : List Contact → List Contact
  | [] => [c]
  | d :: ds => if c.id ≤ d.id then c :: d :: ds else d :: insertById c ds

/-- `ORDER BY Contact.id ASC`: stable ascending sort of the selected rows. -/
def sortById : List Contact → List Contact
  | [] => []
  | c :: cs => insertById c (sortById cs)

/-- SQL `LIMIT`: `none` models an absent bound. -/
def applyLimit : Option Nat → List Contact → List Contact
  | none, l => l
  | some n, l => l.take n

/-- `repo_get_contacts(db, user, limit, offset)`: the owner's rows ordered
by id ascending, with `OFFSET` and `LIMIT` applied. -/
def repo_get_contacts (db : List Contact) (user : User) (limit : Option Nat)
    (offset : Nat) : List Contact :=
  applyLimit limit ((sortById (db.filter (fun c => c.user_id == user.id))).drop offset)

/-- `repo_get_contacts_query(user, query, limit, offset, db)`: the owner's
rows whose lowercased first name, last name or email `LIKE`-match the
lowercased percent-wrapped query, ordered by id ascending, with `OFFSET`
and `LIMIT` applied. -/
def repo_get_contacts_query (user : User) (query : String) (limit : Option Nat)
    (offset : Nat) (db : List Contact) : List Contact :=
  applyLimit limit
    ((sortById (db.filter
      (fun c => c.user_id == user.id && contactMatchesQuery query c))).drop offset)

/-- The `for contact in contacts` loop of
`repo_get_upcoming_birthday_contacts`: project each stored birth date onto
the current year with `datetime.datetime(today.year, b_day.month,
b_day.day)` and keep the contact when the projection falls in
`[today, end_date]`; a `ValueError` from the date constructor propagates
(modelled by `none`). -/
def bdayLoop (today end_date : PyDate) : List Contact → Option (List Contact)
  | [] => some []
  | c :: cs =>
    match mkPyDate today.year c.b_day.month c.b_day.day with
    | none => none
    | some today_year_b_day =>
      match bdayLoop today end_date cs with
      | none => none
      | some rest =>
        some (if dateLe today today_year_b_day && dateLe today_year_b_day end_date
          then c :: rest else rest)

/-- `repo_get_upcoming_birthday_contacts(user, db)` at wall-clock date
`today`: `end_date = today + timedelta(days=7)`, then the projection loop
over the owner's contacts. -/
def repo_get_upcoming_birthday_contacts (user : User) (today : PyDate)
    (db : List Contact) : Option (List Contact) :=
  bdayLoop today (addDays today 7) (db.filter (fun c => c.user_id == user.id))

/-- Literal (unescaped) substring test, the reading of "matched as a
literal substring" that the wildcard claim is contrasted with. -/
def isLiteralSubstring (needle hay : String) : Bool :=
  hay.data.tails.any (fun t => needle.data.isPrefixOf t)

/-- Registered user for the concrete token scenarios. -/
def u0 : User :=
  { id := 1, username := "ann", email := "a@x.com", password := "hashed-pw123",
    is_activated := true, avatar := none, refresh_token := none, reset_token := none,
    created_at := 0 }

/-- Not-yet-activated user for the activation scenarios. -/
def u1 : User :=
  { id := 2, username := "bob", email := "b@x.com", password := "hashed-pw",
    is_activated := false, avatar := none, refresh_token := none, reset_token := none,
    created_at := 0 }

/-- Contact owned by user 42, used to probe owner scoping as user `u0`. -/
def c1 : Contact :=
  { id := 5, user_id := 42, first_name := "John", last_name := "Doe",
    email := "j@x.com", phone := "123", b_day := ⟨1990, 5, 10⟩, note := none }

/-- Empty partial-update body. -/
def noUpdate : ContactUpdate :=
  { first_name := none, last_name := none, email := none, phone := none,
    b_day := none, note := none }

/-- Contact of user `u0` born on February 29 of a leap year. -/
def cFeb29 : Contact :=
  { id := 9, user_id := 1, first_name := "Leap", last_name := "Day",
    email := "l@x.com", phone := "999", b_day := ⟨2020, 2, 29⟩, note := none }

/-- Contact of user `u0` whose first name is the literal text axb. -/
def cAxb : Contact :=
  { id := 3, user_id := 1, first_name := "axb", last_name := "zz",
    email := "c@x.com", phone := "1", b_day := ⟨1990, 1, 1⟩, note := none }

lemma jwtDecode_some_eq {t : Token} {key : String} {algs : List String} {now : Nat}
    {p : TokenPayload} (h : jwtDecode t key algs now = some p) : p = t.payload := by
  unfold jwtDecode at h
  split at h
  · exact (Option.some.inj h).symm
  · exact Option.noConfusion h

lemma jwtDecode_create_access (data_sub : Option String) (t now : Nat) (ed : Option Nat)
    (h : now ≤ (create_access_token data_sub t ed).payload.exp) :
    jwtDecode (create_access_token data_sub t ed) SECRET_KEY [ALGR] now =
      some (create_access_token data_sub t ed).payload := by
  unfold jwtDecode
  rw [if_pos]
  exact ⟨rfl, List.mem_cons_self ALGR [], h⟩

/-- C2: a freshly issued access token for any subject, checked before its
expiry, passes the token-validation part of `get_current_user` and yields
the same subject. -/
theorem access_token_roundtrip (subject : String) (t now : Nat) (ed : Option Nat)
    (h : now ≤ (create_access_token (some subject) t ed).payload.exp) :
    verify_access_subject (create_access_token (some subject) t ed) now =
      Except.ok subject := by
  unfold verify_access_subject
  rw [jwtDecode_create_access (some subject) t now ed h]
  rfl

theorem access_token_roundtrip_witness :
    (0 : Nat) ≤ (create_access_token (some "a@x.com") 0 none).payload.exp ∧
    verify_access_subject (create_access_token (some "a@x.com") 0 none) 0 =
      Except.ok "a@x.com" :=
  ⟨by decide, access_token_roundtrip "a@x.com" 0 0 none (by decide)⟩

/-- C1: the spec scenario expects a refresh token presented in place of an
access token to fail `GET /me` with 401, but `create_refresh_token` writes
scope "access_token" — the very tag `get_current_user` accepts — so the
refresh token is accepted and the registered user is returned. -/
theorem refresh_token_accepted_by_access_verifier :
    get_current_user (create_refresh_token (some "a@x.com") 0 none) 60 [u0] =
      Except.ok u0 := rfl

lemma decode_refresh_token_wrong_scope (tok : Token) (now : Nat)
    (h : tok.payload.scope ≠ "refresh_token") :
    ∃ e, decode_refresh_token tok now = Except.error e ∧ e.status_code = 401 := by
  cases hd : jwtDecode tok SECRET_KEY [ALGR] now with
  | none =>
    exact ⟨{ status_code := 401, detail := "Could not validate credentials" },
      by simp [decode_refresh_token, hd], rfl⟩
  | some payload =>
    have hps : ¬ payload.scope = "refresh_token" := by
      rw [jwtDecode_some_eq hd]; exact h
    exact ⟨{ status_code := 401, detail := "Invalid token scope" },
      by simp [decode_refresh_token, hd, hps], rfl⟩

/-- C9: every token the four issuers ever produce carries a scope other
than "refresh_token" (namely "access_token", "access_token", "email_token"
and "refresh"), so `decode_refresh_token` rejects all of them with HTTP
401. -/
theorem issued_tokens_all_fail_refresh_verifier (data_sub : Option String)
    (t : Nat) (ed : Option Nat) (expire : Nat) (now : Nat) :
    (∃ e, decode_refresh_token (create_access_token data_sub t ed) now =
        Except.error e ∧ e.status_code = 401) ∧
    (∃ e, decode_refresh_token (create_refresh_token data_sub t ed) now =
        Except.error e ∧ e.status_code = 401) ∧
    (∃ e, decode_refresh_token (create_email_token data_sub t) now =
        Except.error e ∧ e.status_code = 401) ∧
    (∃ e, decode_refresh_token (create_reset_token data_sub t expire) now =
        Except.error e ∧ e.status_code = 401) := by
  refine ⟨decode_refresh_token_wrong_scope _ now ?_, decode_refresh_token_wrong_scope _ now ?_,
    decode_refresh_token_wrong_scope _ now ?_, decode_refresh_token_wrong_scope _ now ?_⟩
  · rw [show (create_access_token data_sub t ed).payload.scope = "access_token" from rfl]
    decide
  · rw [show (create_refresh_token data_sub t ed).payload.scope = "access_token" from rfl]
    decide
  · rw [show (create_email_token data_sub t).payload.scope = "email_token" from rfl]
    decide
  · rw [show (create_reset_token data_sub t expire).payload.scope = "refresh" from rfl]
    decide

lemma get_email_from_token_ok (tok : Token) (now : Nat) (payload : TokenPayload)
    (hd : jwtDecode tok SECRET_KEY [ALGR] now = some payload) :
    get_email_from_token tok now =
      (if payload.scope = "email_token" then Except.ok payload.sub else Except.ok none) := by
  simp [get_email_from_token, hd]

lemma get_email_from_reset_token_ok (tok : Token) (now : Nat) (payload : TokenPayload)
    (hd : jwtDecode tok SECRET_KEY [ALGR] now = some payload) :
    get_email_from_reset_token tok now =
      (if payload.scope = "refresh" then Except.ok payload.sub else Except.ok none) := by
  simp [get_email_from_reset_token, hd]

/-- C4: the email-token and reset-token verifiers raise HTTP 422 exactly
when decoding fails, and return `None` silently when the token decodes but
its scope tag is not the expected one. -/
theorem email_reset_verifier_asymmetry (tok : Token) (now : Nat) :
    ((∃ e, get_email_from_token tok now = Except.error e ∧ e.status_code = 422) ↔
      jwtDecode tok SECRET_KEY [ALGR] now = none) ∧
    (∀ p, jwtDecode tok SECRET_KEY [ALGR] now = some p → p.scope ≠ "email_token" →
      get_email_from_token tok now = Except.ok none) ∧
    ((∃ e, get_email_from_reset_token tok now = Except.error e ∧ e.status_code = 422) ↔
      jwtDecode tok SECRET_KEY [ALGR] now = none) ∧
    (∀ p, jwtDecode tok SECRET_KEY [ALGR] now = some p → p.scope ≠ "refresh" →
      get_email_from_reset_token tok now = Except.ok none) := by
  cases hd : jwtDecode tok SECRET_KEY [ALGR] now with
  | none =>
    refine ⟨⟨fun _ => rfl, fun _ =>
        ⟨HTTPError.mk 422 "Invalid token for email confirmation.",
          by simp [get_email_from_token, hd], rfl⟩⟩,
      fun p hp => Option.noConfusion hp,
      ⟨fun _ => rfl, fun _ =>
        ⟨HTTPError.mk 422 "Invalid token for password reset.",
          by simp [get_email_from_reset_token, hd], rfl⟩⟩,
      fun p hp => Option.noConfusion hp⟩
  | some payload =>
    constructor
    · constructor
      · rintro ⟨e, he, -⟩
        rw [get_email_from_token_ok tok now payload hd] at he
        revert he
        split <;> simp
      · intro hcontra
        exact Option.noConfusion hcontra
    constructor
    · intro p hp hscope
      have hpp : p = payload := (Option.some.inj hp).symm
      rw [get_email_from_token_ok tok now payload hd, if_neg (hpp ▸ hscope)]
    constructor
    · constructor
      · rintro ⟨e, he, -⟩
        rw [get_email_from_reset_token_ok tok now payload hd] at he
        revert he
        split <;> simp
      · intro hcontra
        exact Option.noConfusion hcontra
    · intro p hp hscope
      have hpp : p = payload := (Option.some.inj hp).symm
      rw [get_email_from_reset_token_ok tok now payload hd, if_neg (hpp ▸ hscope)]

theorem email_reset_verifier_asymmetry_witness :
    get_email_from_token (create_access_token (some "a@x.com") 0 none) 0 =
      Except.ok none :=
  (email_reset_verifier_asymmetry (create_access_token (some "a@x.com") 0 none) 0).2.1
    (create_access_token (some "a@x.com") 0 none).payload rfl
    (by rw [show (create_access_token (some "a@x.com") 0 none).payload.scope =
        "access_token" from rfl]; decide)

lemma verify_access_subject_error_eq (tok : Token) (now : Nat) (e : HTTPError)
    (h : verify_access_subject tok now = Except.error e) : e = credentials_exception := by
  unfold verify_access_subject at h
  split at h
  · exact (Except.error.inj h).symm
  · split at h
    · exact (Except.error.inj h).symm
    · split at h
      · exact (Except.error.inj h).symm
      · exact Except.noConfusion h

/-- C8 counterexample: a validly signed, unexpired token whose scope is
"access_token" makes `decode_refresh_token` answer 401 with detail
"Invalid token scope", distinguishable from the generic
"Could not validate credentials" 401 — so not every Unauthorized response
carries the same generic message. -/
theorem refresh_verifier_401_leaks_which_check_failed :
    decode_refresh_token (create_access_token (some "a@x.com") 0 none) 0 =
      Except.error (HTTPError.mk 401 "Invalid token scope") ∧
    HTTPError.mk 401 "Invalid token scope" ≠ credentials_exception :=
  ⟨rfl, by decide⟩

/-- C8 amended: every 401 raised by `get_current_user` carries the one
generic "Could not validate credentials" detail, and every failure of
`decode_refresh_token` is a 401, but the latter distinguishes a wrong
scope ("Invalid token scope") from a decode failure ("Could not validate
credentials"). -/
theorem unauthorized_responses_amended :
    (∀ (tok : Token) (now : Nat) (db : List User) (e : HTTPError),
      get_current_user tok now db = Except.error e → e = credentials_exception) ∧
    (∀ (tok : Token) (now : Nat) (e : HTTPError),
      decode_refresh_token tok now = Except.error e →
        e.status_code = 401 ∧
          (e.detail = "Could not validate credentials" ∨ e.detail = "Invalid token scope")) := by
  constructor
  · intro tok now db e h
    unfold get_current_user at h
    split at h
    · next e2 hv =>
      have he2 : e2 = credentials_exception := verify_access_subject_error_eq tok now e2 hv
      rw [← Except.error.inj h]
      exact he2
    · next email hv =>
      split at h
      · exact (Except.error.inj h).symm
      · exact Except.noConfusion h
  · intro tok now e h
    unfold decode_refresh_token at h
    split at h
    · split at h
      · exact Except.noConfusion h
      · have he : e = HTTPError.mk 401 "Invalid token scope" := (Except.error.inj h).symm
        rw [he]
        exact ⟨rfl, Or.inr rfl⟩
    · have he : e = HTTPError.mk 401 "Could not validate credentials" := (Except.error.inj h).symm
      rw [he]
      exact ⟨rfl, Or.inl rfl⟩

theorem unauthorized_responses_amended_witness :
    credentials_exception = credentials_exception ∧
    ((HTTPError.mk 401 "Invalid token scope").status_code = 401 ∧
      ((HTTPError.mk 401 "Invalid token scope").detail = "Could not validate credentials" ∨
        (HTTPError.mk 401 "Invalid token scope").detail = "Invalid token scope")) :=
  ⟨unauthorized_responses_amended.1 (create_email_token (some "a@x.com") 0) 0 []
      credentials_exception rfl,
    unauthorized_responses_amended.2 (create_access_token (some "a@x.com") 0 none) 0
      (HTTPError.mk 401 "Invalid token scope") rfl⟩

lemma set_activated_self (u : User) (h : u.is_activated = true) :
    { u with is_activated := true } = u := by
  cases u
  simp_all

lemma find_setActivatedFirst (email : String) (db : List User) (u : User)
    (h : repo_user_authentication_by_email email db = some u) :
    repo_user_authentication_by_email email (setActivatedFirst email db) =
      some { u with is_activated := true } := by
  induction db with
  | nil => exact Option.noConfusion h
  | cons v vs ih =>
    unfold repo_user_authentication_by_email at h ih ⊢
    by_cases hv : (v.email == email) = true
    · have hcons : List.find? (fun w : User => w.email == email) (v :: vs) = some v :=
        List.find?_cons_of_pos vs hv
      rw [hcons] at h
      have huv : v = u := Option.some.inj h
      unfold setActivatedFirst
      rw [if_pos hv]
      have hcons2 : List.find? (fun w : User => w.email == email)
          ({ v with is_activated := true } :: vs) = some { v with is_activated := true } :=
        List.find?_cons_of_pos vs hv
      rw [hcons2, huv]
    · have hcons : List.find? (fun w : User => w.email == email) (v :: vs) =
          List.find? (fun w : User => w.email == email) vs :=
        List.find?_cons_of_neg vs hv
      rw [hcons] at h
      unfold setActivatedFirst
      rw [if_neg hv]
      have hcons2 : List.find? (fun w : User => w.email == email)
          (v :: setActivatedFirst email vs) =
          List.find? (fun w : User => w.email == email) (setActivatedFirst email vs) :=
        List.find?_cons_of_neg _ hv
      rw [hcons2]
      exact ih h

lemma setActivatedFirst_id_of_activated (email : String) (db : List User) (u : User)
    (h : repo_user_authentication_by_email email db = some u)
    (hact : u.is_activated = true) : setActivatedFirst email db = db := by
  induction db with
  | nil => rfl
  | cons v vs ih =>
    unfold repo_user_authentication_by_email at h ih
    unfold setActivatedFirst
    by_cases hv : (v.email == email) = true
    · rw [if_pos hv]
      have hcons : List.find? (fun w : User => w.email == email) (v :: vs) = some v :=
        List.find?_cons_of_pos vs hv
      rw [hcons] at h
      have huv : v = u := Option.some.inj h
      have hvact : v.is_activated = true := by rw [huv]; exact hact
      rw [set_activated_self v hvact]
    · rw [if_neg hv]
      have hcons : List.find? (fun w : User => w.email == email) (v :: vs) =
          List.find? (fun w : User => w.email == email) vs :=
        List.find?_cons_of_neg vs hv
      rw [hcons] at h
      rw [ih h]

/-- C5 counterexample: with an empty user table, `confirmed_email` on an
unknown email does not fail silently leaving the table unchanged — it
raises (`user` is `None` and `user.is_activated = True` is an
`AttributeError`, modelled by `none`). -/
theorem confirmed_email_unknown_email_raises :
    confirmed_email "a@x.com" [] = none ∧ confirmed_email "a@x.com" [] ≠ some [] :=
  ⟨rfl, by decide⟩

/-- C5 amended: `confirmed_email` sets the looked-up user's activation
flag to true; it is an idempotent no-op when the flag is already true; but
on an email matching no user it raises an `AttributeError` (dereference of
`None`) instead of failing silently. -/
theorem confirmed_email_behavior (email : String) (db : List User) :
    (repo_user_authentication_by_email email db = none → confirmed_email email db = none) ∧
    (∀ u, repo_user_authentication_by_email email db = some u →
      confirmed_email email db = some (setActivatedFirst email db) ∧
      repo_user_authentication_by_email email (setActivatedFirst email db) =
        some { u with is_activated := true } ∧
      (u.is_activated = true → setActivatedFirst email db = db)) := by
  constructor
  · intro h
    unfold confirmed_email
    rw [h]
  · intro u h
    refine ⟨?_, find_setActivatedFirst email db u h, fun hact =>
      setActivatedFirst_id_of_activated email db u h hact⟩
    unfold confirmed_email
    rw [h]

theorem confirmed_email_behavior_witness :
    confirmed_email "b@x.com" [u1] = some (setActivatedFirst "b@x.com" [u1]) ∧
    repo_user_authentication_by_email "b@x.com" (setActivatedFirst "b@x.com" [u1]) =
      some { u1 with is_activated := true } :=
  ⟨((confirmed_email_behavior "b@x.com" [u1]).2 u1 rfl).1,
    ((confirmed_email_behavior "b@x.com" [u1]).2 u1 rfl).2.1⟩

/-- C3: when no stored contact has both the requested id and the caller as
owner — the id is absent, or the row belongs to another user — get, update
and delete all answer the identical 404 "Contact not found" error, so the
not-owned case is indistinguishable from the nonexistent one. -/
theorem not_owned_indistinguishable_from_missing (user : User) (id : Nat)
    (db : List Contact) (body : ContactUpdate)
    (h : ∀ c ∈ db, ¬ (c.id = id ∧ c.user_id = user.id)) :
    repo_get_contact_by_id id user db =
        Except.error (HTTPError.mk 404 "Contact not found") ∧
    repo_update_contact_db id user body db =
        Except.error (HTTPError.mk 404 "Contact not found") ∧
    repo_delete_contact_db id user db =
        Except.error (HTTPError.mk 404 "Contact not found") := by
  have hf : get_specific_contact_belongs_to_user id user db = none := by
    unfold get_specific_contact_belongs_to_user
    rw [List.find?_eq_none]
    intro c hc
    simp only [Bool.and_eq_true, beq_iff_eq, not_and]
    intro h1 h2
    exact h c hc ⟨h2, h1⟩
  exact ⟨by simp [repo_get_contact_by_id, hf], by simp [repo_update_contact_db, hf],
    by simp [repo_delete_contact_db, hf]⟩

theorem not_owned_indistinguishable_from_missing_witness :
    repo_get_contact_by_id 5 u0 [c1] =
        Except.error (HTTPError.mk 404 "Contact not found") ∧
    repo_update_contact_db 5 u0 noUpdate [c1] =
        Except.error (HTTPError.mk 404 "Contact not found") ∧
    repo_delete_contact_db 5 u0 [c1] =
        Except.error (HTTPError.mk 404 "Contact not found") :=
  not_owned_indistinguishable_from_missing u0 5 [c1] noUpdate (by decide)

/-- C6: the claim says the upcoming-birthday query must not crash on a
February 29 birth date in a non-leap current year; the source constructs
`datetime.datetime(today.year, 2, 29)` unguarded, which raises
`ValueError` — here, user u0's contact born 2020-02-29 queried on
2023-02-25 makes the whole query fail (`none`) instead of returning a
list. -/
theorem feb29_birthday_projection_crashes :
    repo_get_upcoming_birthday_contacts u0 (PyDate.mk 2023 2 25) [cFeb29] = none ∧
    mkPyDate 2023 2 29 = none := by
  exact ⟨rfl, rfl⟩

lemma likeMatchL_percent_skip (ps s1 s2 : List Char) (h : likeMatchL ps s2 = true) :
    likeMatchL ('%' :: ps) (s1 ++ s2) = true := by
  have hrw : likeMatchL ('%' :: ps) (s1 ++ s2) =
      (s1 ++ s2).tails.any (fun t => likeMatchL ps t) := by
    simp [likeMatchL]
  rw [hrw, List.any_eq_true]
  exact ⟨s2, (List.mem_tails _ _).mpr ⟨s1, rfl⟩, h⟩

lemma likeMatchL_percent_one (s : List Char) : likeMatchL ['%'] s = true := by
  have h0 : likeMatchL ([] : List Char) [] = true := rfl
  have h1 := likeMatchL_percent_skip [] s [] h0
  rwa [List.append_nil] at h1

lemma likeMatchL_append_self (a ps s : List Char) (h : likeMatchL ps s = true) :
    likeMatchL (a ++ ps) (a ++ s) = true := by
  induction a with
  | nil => exact h
  | cons c cs ih =>
    by_cases hc : c = '%'
    · subst hc
      exact likeMatchL_percent_skip (cs ++ ps) ['%'] (cs ++ s) ih
    · show likeMatchL (c :: (cs ++ ps)) (c :: (cs ++ s)) = true
      simp [likeMatchL, hc, ih]

lemma likeMatchL_trailing_percent (l : List Char) : likeMatchL (l ++ ['%']) l = true := by
  have h1 := likeMatchL_append_self l ['%'] [] (by decide)
  rwa [List.append_nil] at h1

lemma likeMatchL_underscore_cons (t u : List Char) (c : Char)
    (h : likeMatchL t u = true) : likeMatchL ('_' :: t) (c :: u) = true := by
  simp [likeMatchL, h]

lemma likeMatchL_percent_infix (la lmid lb : List Char) :
    likeMatchL ('%' :: (la ++ '%' :: (lb ++ ['%']))) (la ++ (lmid ++ lb)) = true :=
  likeMatchL_percent_skip _ [] _
    (likeMatchL_append_self la _ _
      (likeMatchL_percent_skip _ lmid _ (likeMatchL_trailing_percent lb)))

lemma likeMatchL_underscore_infix (lx ly : List Char) (c : Char) :
    likeMatchL ('%' :: (lx ++ '_' :: (ly ++ ['%']))) (lx ++ (c :: ly)) = true :=
  likeMatchL_percent_skip _ [] _
    (likeMatchL_append_self lx _ _
      (likeMatchL_underscore_cons _ ly c (likeMatchL_trailing_percent ly)))

lemma strLower_data (s : String) : (strLower s).data = s.data.map Char.toLower := rfl

lemma searchPattern_data (q : String) : (searchPattern q).data = '%' :: (q.data ++ ['%']) := by
  unfold searchPattern
  rw [String.data_append, String.data_append]
  rfl

lemma contactMatches_of_first_name (q : String) (c : Contact)
    (h : likeMatchL (strLower (searchPattern q)).data (strLower c.first_name).data = true) :
    contactMatchesQuery q c = true := by
  unfold contactMatchesQuery likeMatch
  rw [h]
  simp

lemma contactMatchesQuery_empty (c : Contact) : contactMatchesQuery "" c = true := by
  apply contactMatches_of_first_name
  have hpat : (strLower (searchPattern "")).data = ['%', '%'] := rfl
  rw [hpat]
  exact likeMatchL_percent_skip ['%'] [] _ (likeMatchL_percent_one _)

/-- C7: searching with the empty query returns exactly the same rows as
the plain listing, for every owner, limit and offset — the percent-wrapped
empty pattern `LIKE`-matches every stored string. -/
theorem empty_query_equals_full_listing (user : User) (db : List Contact)
    (limit : Option Nat) (offset : Nat) :
    repo_get_contacts_query user "" limit offset db =
      repo_get_contacts db user limit offset := by
  have hfun : (fun c : Contact => c.user_id == user.id && contactMatchesQuery "" c) =
      (fun c : Contact => c.user_id == user.id) := by
    funext c
    rw [contactMatchesQuery_empty c, Bool.and_true]
  unfold repo_get_contacts_query repo_get_contacts
  rw [hfun]

lemma percent_query_matches (a mid b : String) (c : Contact)
    (hname : c.first_name = a ++ mid ++ b) :
    contactMatchesQuery (a ++ "%" ++ b) c = true := by
  apply contactMatches_of_first_name
  rw [hname, strLower_data, strLower_data, searchPattern_data]
  have hpc : ("%" : String).data = ['%'] := rfl
  have hlc : Char.toLower '%' = '%' := rfl
  simp only [String.data_append, hpc, List.map_append, List.map_cons, List.map_nil,
    List.cons_append, List.nil_append, List.append_assoc, hlc]
  exact likeMatchL_percent_infix _ _ _

lemma underscore_query_matches (x y : String) (ch : Char) (c : Contact)
    (hname : c.first_name = x ++ String.singleton ch ++ y) :
    contactMatchesQuery (x ++ "_" ++ y) c = true := by
  apply contactMatches_of_first_name
  rw [hname, strLower_data, strLower_data, searchPattern_data]
  have hpu : ("_" : String).data = ['_'] := rfl
  have hps : (String.singleton ch).data = [ch] := rfl
  have hlu : Char.toLower '_' = '_' := rfl
  simp only [String.data_append, hpu, hps, List.map_append, List.map_cons, List.map_nil,
    List.cons_append, List.nil_append, List.append_assoc, hlu]
  exact likeMatchL_underscore_infix _ _ _

/-- C10: the query is interpolated into the `LIKE` pattern unescaped, so a
percent sign in the query matches any character sequence of the contact's
field and an underscore matches any single character; concretely, the
queries with wildcards select the stored contact even though they are not
literal substrings of any of its fields. -/
theorem like_wildcards_not_literal :
    (∀ (a mid b : String) (c : Contact), c.first_name = a ++ mid ++ b →
      contactMatchesQuery (a ++ "%" ++ b) c = true) ∧
    (∀ (x y : String) (ch : Char) (c : Contact),
      c.first_name = x ++ String.singleton ch ++ y →
      contactMatchesQuery (x ++ "_" ++ y) c = true) ∧
    (contactMatchesQuery "a%b" cAxb = true ∧
      isLiteralSubstring "a%b" cAxb.first_name = false ∧
      contactMatchesQuery "a_b" cAxb = true ∧
      isLiteralSubstring "a_b" cAxb.first_name = false ∧
      repo_get_contacts_query u0 "a%b" none 0 [cAxb] = [cAxb]) :=
  ⟨percent_query_matches, underscore_query_matches,
    by decide, by decide, by decide, by decide, by decide⟩

theorem like_wildcards_not_literal_witness :
    contactMatchesQuery "a%b" cAxb = true ∧ contactMatchesQuery "a_b" cAxb = true :=
  ⟨like_wildcards_not_literal.1 "a" "x" "b" cAxb (by decide),
    like_wildcards_not_literal.2.1 "a" "b" 'x' cAxb (by decide)⟩
